import Mathlib

/-!
Verification of the Sapphire ParaTime runtime composition layer
(`runtime/src/lib.rs`): environment-tier resolution (`is_testnet`,
`chain_id`, `state_version`), trust resolvers (`trusted_signers`,
`consensus_trust_root`), the module registry (`type Modules`), the genesis
assembler (`genesis_state`) and the migration executor (`migrate_state`).

The Rust code resolves its environment from compile-time signals:
`env!("CARGO_PKG_VERSION_PRE")`, `option_env!("OASIS_UNSAFE_USE_LOCALNET_CHAINID")`,
`option_env!("OASIS_UNSAFE_SKIP_KM_POLICY")`, the `debug-mock-sgx` cargo
feature and the `target_env = "sgx"` target.  We reify those signals as an
explicit `BuildCfg` record and embed each `const fn` / trait method as a
pure function of it.
-/

/-- Compile-time build signals read by the runtime crate.

The crate itself reads only the first five fields.  The `production` field
records whether the builder flagged the build as a production build: no code
in the crate reads any such flag, which the embedding makes explicit by
carrying the field and never consulting it. -/
structure BuildCfg where
  /-- Value of `env!("CARGO_PKG_VERSION_PRE")`: the pre-release component of
  the crate version (empty for releases such as `5.0.0`). -/
  cargoPkgVersionPre : String
  /-- Value of `option_env!("OASIS_UNSAFE_USE_LOCALNET_CHAINID")`. -/
  localnetChainId : Option String
  /-- Value of `option_env!("OASIS_UNSAFE_SKIP_KM_POLICY")`. -/
  skipKMPolicy : Option String
  /-- Whether the `debug-mock-sgx` cargo feature is enabled. -/
  debugMockSgx : Bool
  /-- Whether the build targets `target_env = "sgx"` (an enclave build). -/
  sgx : Bool
  /-- Whether the builder intends this as a production build (read by nothing
  in the crate). -/
  production : Bool
  deriving DecidableEq

/-- Ambient effects a function could in principle observe (wall-clock time,
randomness, mutable process state).  `genesis_state` in the source calls no
such API — its body is built from literals and `BTreeMap::from` on literal
arrays — so its embedding receives the world and never reads it. -/
structure World where
  time : Nat
  entropy : Nat
  processState : Nat
  deriving DecidableEq

/-- `is_testnet`: the build is Testnet iff the crate version has a non-empty
pre-release component (`runtime/src/lib.rs:25`). -/
def is_testnet (cfg : BuildCfg) : Bool :=
  !cfg.cargoPkgVersionPre.isEmpty

/-- `chain_id` (`runtime/src/lib.rs:30`): Localnet override first, then the
Testnet pre-release test, else Mainnet. -/
def chain_id (cfg : BuildCfg) : Nat :=
  if cfg.localnetChainId.isSome then
    -- Localnet.
    0x5afd
  else if is_testnet cfg then
    -- Testnet.
    0x5aff
  else
    -- Mainnet.
    0x5afe

/-- `state_version` (`runtime/src/lib.rs:44`): 7 for Testnet, 4 for Mainnet;
the function never consults the localnet override. -/
def state_version (cfg : BuildCfg) : Nat :=
  if is_testnet cfg then
    -- Testnet.
    7
  else
    -- Mainnet.
    4

/-- The three environment tiers of the data model. -/
inductive EnvironmentTier
  | Mainnet
  | Testnet
  | Localnet
  deriving DecidableEq

/-- Environment tier of a build, following the branch structure of
`chain_id`: the localnet override wins, otherwise a non-empty pre-release
component means Testnet, otherwise Mainnet. -/
def tierOf (cfg : BuildCfg) : EnvironmentTier :=
  if cfg.localnetChainId.isSome then
    EnvironmentTier.Localnet
  else if is_testnet cfg then
    EnvironmentTier.Testnet
  else
    EnvironmentTier.Mainnet

/-- A Mainnet build configuration: no pre-release marker, no unsafe flags. -/
def cfgMain : BuildCfg :=
  { cargoPkgVersionPre := "", localnetChainId := none, skipKMPolicy := none,
    debugMockSgx := false, sgx := false, production := false }

/-- A Testnet build configuration: pre-release marker present. -/
def cfgTest : BuildCfg :=
  { cfgMain with cargoPkgVersionPre := "testnet" }

/-- A Localnet build configuration: localnet chain-id override set. -/
def cfgLocal : BuildCfg :=
  { cfgMain with localnetChainId := some "1" }

/-- A Localnet build whose crate version also carries a pre-release marker. -/
def cfgLocalTest : BuildCfg :=
  { cfgTest with localnetChainId := some "1" }

/-- C1: for every build configuration, `chain_id` and `state_version` return
the per-tier literals — Mainnet: chain id 0x5afe and state version 4;
Testnet: chain id 0x5aff and state version 7; Localnet (override flag set,
which takes priority over the pre-release marker): chain id 0x5afd. -/
theorem chain_id_state_version_by_tier (cfg : BuildCfg) :
    (tierOf cfg = EnvironmentTier.Mainnet →
      chain_id cfg = 0x5afe ∧ state_version cfg = 4)
    ∧ (tierOf cfg = EnvironmentTier.Testnet →
      chain_id cfg = 0x5aff ∧ state_version cfg = 7)
    ∧ (tierOf cfg = EnvironmentTier.Localnet →
      chain_id cfg = 0x5afd) := by
  unfold tierOf chain_id state_version
  cases h1 : cfg.localnetChainId.isSome <;>
    cases h2 : is_testnet cfg <;> simp [h1, h2]

/-- Witness for C1: the theorem applied at concrete Mainnet, Testnet and
Localnet build configurations. -/
theorem chain_id_state_version_by_tier_w :
    (chain_id cfgMain = 0x5afe ∧ state_version cfgMain = 4)
    ∧ (chain_id cfgTest = 0x5aff ∧ state_version cfgTest = 7)
    ∧ chain_id cfgLocal = 0x5afd :=
  ⟨(chain_id_state_version_by_tier cfgMain).1 (by decide),
   (chain_id_state_version_by_tier cfgTest).2.1 (by decide),
   (chain_id_state_version_by_tier cfgLocal).2.2 (by decide)⟩

/-- C10: `state_version` is decided solely by the pre-release marker; with
the localnet flag set it still returns 7 when the marker is non-empty and 4
when it is empty, and removing the flag leaves the value unchanged. -/
theorem state_version_ignores_localnet_flag (cfg : BuildCfg)
    (h : cfg.localnetChainId.isSome = true) :
    state_version cfg = (if cfg.cargoPkgVersionPre.isEmpty then 4 else 7)
    ∧ state_version cfg = state_version { cfg with localnetChainId := none } := by
  unfold state_version is_testnet
  cases h2 : cfg.cargoPkgVersionPre.isEmpty <;> simp [h2]

/-- Witness for C10: with the localnet flag set, the state version is 4 when
the pre-release marker is empty and 7 when it is non-empty. -/
theorem state_version_ignores_localnet_flag_w :
    (state_version cfgLocal
        = (if cfgLocal.cargoPkgVersionPre.isEmpty then 4 else 7))
    ∧ (state_version cfgLocalTest
        = (if cfgLocalTest.cargoPkgVersionPre.isEmpty then 4 else 7)) :=
  ⟨(state_version_ignores_localnet_flag cfgLocal (by decide)).1,
   (state_version_ignores_localnet_flag cfgLocalTest (by decide)).1⟩

/-- A public key in this runtime's SDK representation
(`oasis_runtime_sdk::core::common::crypto::signature::PublicKey`), a newtype
over raw key bytes. -/
structure PublicKey where
  bytes : Nat
  deriving DecidableEq

/-- A public key as represented by the `keymanager` crate's (possibly
different) version of `oasis_core`; `s.0` in the source is its raw bytes. -/
structure ExtPublicKey where
  bytes : Nat
  deriving DecidableEq

/-- The canonical key-manager trusted-policy-signers value fetched from the
external static policy source (`keymanager::trusted_policy_signers()`). -/
structure ExtTrustedSigners where
  signers : List ExtPublicKey
  threshold : Nat
  deriving DecidableEq

/-- `TrustedSigners` in this runtime's SDK representation: a set of signer
public keys (modelled as a list) and a signing threshold. -/
structure TrustedSigners where
  signers : List PublicKey
  threshold : Nat
  deriving DecidableEq

/-- `TrustedSigners::default()`: the derived `Default` of the oasis-core
struct — an empty signer set and threshold 0. -/
def TrustedSigners.default : TrustedSigners :=
  { signers := [], threshold := 0 }

/-- `trusted_signers` (`runtime/src/lib.rs:140`): if the unsafe
`OASIS_UNSAFE_SKIP_KM_POLICY` env var equals `"1"` or the `debug-mock-sgx`
feature is on, return the permissive default; otherwise fetch the canonical
policy signers and re-encode each key into this runtime's representation. -/
def trusted_signers (cfg : BuildCfg) (policy : ExtTrustedSigners) :
    Option TrustedSigners :=
  if cfg.skipKMPolicy = some "1" ∨ cfg.debugMockSgx then
    some TrustedSigners.default
  else
    some { signers := policy.signers.map (fun s => PublicKey.mk s.bytes),
           threshold := policy.threshold }

/-- A concrete external policy-signers value with a non-empty signer set. -/
def policy0 : ExtTrustedSigners :=
  { signers := [ExtPublicKey.mk 1, ExtPublicKey.mk 2], threshold := 2 }

/-- A production-flagged build that nevertheless sets the skip flag. -/
def cfgProdSkip : BuildCfg :=
  { cfgMain with skipKMPolicy := some "1", production := true }

/-- A non-production build with the skip flag set. -/
def cfgSkip : BuildCfg :=
  { cfgMain with skipKMPolicy := some "1" }

/-- C8 counterexample: nothing in the crate excludes the permissive path
from production-flagged builds — a build flagged as production with the
skip flag set still yields the empty signer set with threshold 0. -/
theorem trusted_signers_production_cex :
    cfgProdSkip.production = true
    ∧ trusted_signers cfgProdSkip policy0
        = some { signers := [], threshold := 0 } := by
  exact ⟨rfl, rfl⟩

/-- C8 amended: when the skip-key-manager-policy flag is set to "1" or the
debug-mock-sgx feature is enabled, `trusted_signers` returns `some` of a
`TrustedSigners` with an empty signer set and threshold 0; the crate itself
contains no production-build gate for this path — exclusion from production
builds must be enforced by the surrounding build system. -/
theorem trusted_signers_skip_path (cfg : BuildCfg) (policy : ExtTrustedSigners)
    (h : cfg.skipKMPolicy = some "1" ∨ cfg.debugMockSgx = true) :
    trusted_signers cfg policy = some { signers := [], threshold := 0 } := by
  unfold trusted_signers
  rcases h with h | h <;> simp [h, TrustedSigners.default]

/-- Witness for the amended C8: the skip flag alone suffices. -/
theorem trusted_signers_skip_path_w :
    trusted_signers cfgSkip policy0 = some { signers := [], threshold := 0 } :=
  trusted_signers_skip_path cfgSkip policy0 (Or.inl rfl)

/-- A pinned historical consensus checkpoint used to bootstrap light-client
verification (`oasis_runtime_sdk::core::consensus::verifier::TrustRoot`). -/
structure TrustRoot where
  height : Nat
  hash : String
  runtime_id : String
  chain_context : String
  deriving DecidableEq

/-- The Testnet trust-root literal from `consensus_trust_root`. -/
def testnetTrustRoot : TrustRoot :=
  { height := 21044750,
    hash := "defbded6ddb4b9fda7dc6ed9d4c2b9b977a711495d7ba97028c4ba0b362326f8",
    runtime_id := "000000000000000000000000000000000000000000000000a6d1e3ebf60dff6c",
    chain_context := "0b91b8e4e44b2003a7c5e23ddadb5e14ef5345c0ebcb3ddcae07fa2f244cab76" }

/-- The Mainnet trust-root literal from `consensus_trust_root`. -/
def mainnetTrustRoot : TrustRoot :=
  { height := 19327937,
    hash := "965b97464e8cb549926a0f39670025af9e0fdc271114cb1c9e7fdebb5516cd5f",
    runtime_id := "000000000000000000000000000000000000000000000000f80306c9858e7279",
    chain_context := "bb3d748def55bdfb797a2ac53ee6ee141e54cd2ab2dc2375f4a0703a178e6e55" }

/-- `consensus_trust_root` (`runtime/src/lib.rs:156`): the override is
compiled only for `target_env = "sgx"` and selects the Testnet or Mainnet
literal by `is_testnet()` alone; on non-sgx builds the SDK trait's default
body applies, which returns `None`. -/
def consensus_trust_root (cfg : BuildCfg) : Option TrustRoot :=
  if cfg.sgx then
    if is_testnet cfg then
      -- Testnet.
      some testnetTrustRoot
    else
      -- Mainnet.
      some mainnetTrustRoot
  else
    none

/-- A Localnet enclave build: localnet override set, sgx target, empty
pre-release marker. -/
def cfgLocalSgx : BuildCfg :=
  { cfgLocal with sgx := true }

/-- C7 counterexample: on an enclave build with the localnet override set
(tier Localnet), `consensus_trust_root` does not return `None` — it ignores
the localnet flag and returns the Mainnet literal. -/
theorem consensus_trust_root_localnet_cex :
    tierOf cfgLocalSgx = EnvironmentTier.Localnet
    ∧ consensus_trust_root cfgLocalSgx = some mainnetTrustRoot
    ∧ consensus_trust_root cfgLocalSgx ≠ none := by
  refine ⟨rfl, rfl, ?_⟩
  decide

/-- C7 amended: on enclave (sgx) builds `consensus_trust_root` returns
exactly one of two literal records selected by the pre-release marker alone
— the Testnet literal (height 21044750) when the marker is non-empty, the
Mainnet literal (height 19327937) otherwise, regardless of the localnet
flag — and it returns `None` exactly on non-enclave builds. -/
theorem consensus_trust_root_by_marker (cfg : BuildCfg) :
    (cfg.sgx = false → consensus_trust_root cfg = none)
    ∧ (cfg.sgx = true → is_testnet cfg = true →
        consensus_trust_root cfg = some testnetTrustRoot
        ∧ testnetTrustRoot.height = 21044750)
    ∧ (cfg.sgx = true → is_testnet cfg = false →
        consensus_trust_root cfg = some mainnetTrustRoot
        ∧ mainnetTrustRoot.height = 19327937) := by
  unfold consensus_trust_root
  cases h1 : cfg.sgx <;> cases h2 : is_testnet cfg <;> simp [h1, h2] <;> rfl

/-- Witness for the amended C7: applied at a non-enclave build, a Testnet
enclave build and a Mainnet enclave build. -/
theorem consensus_trust_root_by_marker_w :
    consensus_trust_root cfgMain = none
    ∧ consensus_trust_root { cfgTest with sgx := true } = some testnetTrustRoot
    ∧ consensus_trust_root { cfgMain with sgx := true } = some mainnetTrustRoot :=
  ⟨(consensus_trust_root_by_marker cfgMain).1 rfl,
   ((consensus_trust_root_by_marker { cfgTest with sgx := true }).2.1 rfl
      (by decide)).1,
   ((consensus_trust_root_by_marker { cfgMain with sgx := true }).2.2 rfl
      (by decide)).1⟩

/-- A named unit of value tracked by the ledger
(`oasis_runtime_sdk::types::token::Denomination`). -/
inductive Denomination
  | NATIVE
  | named (name : String)
  deriving DecidableEq

/-- A token amount in base units of a denomination
(`oasis_runtime_sdk::types::token::BaseUnits`). -/
structure BaseUnits where
  amount : Nat
  denomination : Denomination
  deriving DecidableEq

/-- The seven modules of `type Modules` (`runtime/src/lib.rs:123`), in
declaration order. -/
inductive ModId
  | core
  | accounts
  | consensus
  | consensus_accounts
  | rewards
  | rofl
  | evm
  deriving DecidableEq

/-- The module registry: the fixed order of `type Modules`. -/
def registry : List ModId :=
  [ModId.core, ModId.accounts, ModId.consensus, ModId.consensus_accounts,
   ModId.rewards, ModId.rofl, ModId.evm]

/-- `modules::core::DynamicMinGasPrice`. -/
structure DynamicMinGasPrice where
  enabled : Bool
  target_block_gas_usage_percentage : Nat
  min_price_max_change_denominator : Nat
  deriving DecidableEq

/-- `modules::core::GasCosts`. -/
structure CoreGasCosts where
  tx_byte : Nat
  storage_byte : Nat
  auth_signature : Nat
  auth_multisig_signer : Nat
  callformat_x25519_deoxysii : Nat
  deriving DecidableEq

/-- `modules::core::Parameters`; `min_gas_price` is a `BTreeMap`, modelled
as an association list in key order. -/
structure CoreParameters where
  min_gas_price : List (Denomination × Nat)
  dynamic_min_gas_price : DynamicMinGasPrice
  max_batch_gas : Nat
  max_tx_size : Nat
  max_tx_signers : Nat
  max_multisig_signers : Nat
  gas_costs : CoreGasCosts
  deriving DecidableEq

/-- `modules::core::Genesis`. -/
structure CoreGenesis where
  parameters : CoreParameters
  deriving DecidableEq

/-- `modules::accounts::GasCosts`. -/
structure AccountsGasCosts where
  tx_transfer : Nat
  deriving DecidableEq

/-- `modules::accounts::types::DenominationInfo`. -/
structure DenominationInfo where
  decimals : Nat
  deriving DecidableEq

/-- `modules::accounts::Parameters`: the fields the source sets explicitly;
the remaining SDK-defined fields are filled by `..Default::default()` in the
source and are omitted here (they are external to this crate and constant). -/
structure AccountsParameters where
  gas_costs : AccountsGasCosts
  denomination_infos : List (Denomination × DenominationInfo)
  deriving DecidableEq

/-- `modules::accounts::Genesis`: the source sets only `parameters`, filling
the rest with `..Default::default()`. -/
structure AccountsGenesis where
  parameters : AccountsParameters
  deriving DecidableEq

/-- `modules::consensus::GasCosts`. -/
structure ConsensusGasCosts where
  round_root : Nat
  deriving DecidableEq

/-- `modules::consensus::Parameters`. -/
structure ConsensusParameters where
  gas_costs : ConsensusGasCosts
  consensus_denomination : Denomination
  consensus_scaling_factor : Nat
  min_delegate_amount : Nat
  deriving DecidableEq

/-- `modules::consensus::Genesis`. -/
structure ConsensusGenesis where
  parameters : ConsensusParameters
  deriving DecidableEq

/-- `modules::consensus_accounts::GasCosts`. -/
structure ConsensusAccountsGasCosts where
  tx_deposit : Nat
  tx_withdraw : Nat
  tx_delegate : Nat
  tx_undelegate : Nat
  store_receipt : Nat
  take_receipt : Nat
  deriving DecidableEq

/-- `modules::consensus_accounts::Parameters`. -/
structure ConsensusAccountsParameters where
  gas_costs : ConsensusAccountsGasCosts
  disable_delegate : Bool
  disable_undelegate : Bool
  disable_deposit : Bool
  disable_withdraw : Bool
  deriving DecidableEq

/-- `modules::consensus_accounts::Genesis`. -/
structure ConsensusAccountsGenesis where
  parameters : ConsensusAccountsParameters
  deriving DecidableEq

/-- `modules::rewards::types::RewardStep`; the source field `until` is a
Lean keyword and is rendered as `until_epoch`. -/
structure RewardStep where
  until_epoch : Nat
  amount : BaseUnits
  deriving DecidableEq

/-- `modules::rewards::types::RewardSchedule`. -/
structure RewardSchedule where
  steps : List RewardStep
  deriving DecidableEq

/-- `modules::rewards::Parameters`. -/
structure RewardsParameters where
  schedule : RewardSchedule
  participation_threshold_numerator : Nat
  participation_threshold_denominator : Nat
  deriving DecidableEq

/-- `modules::rewards::Genesis`. -/
structure RewardsGenesis where
  parameters : RewardsParameters
  deriving DecidableEq

/-- `modules::rofl::Parameters`: the source uses `Default::default()`; the
SDK-defined fields are external to this crate and constant, so the record is
modelled as fieldless. -/
structure RoflParameters where
  deriving DecidableEq

/-- A ROFL application configuration (external SDK type); the source only
ever uses the empty list of these. -/
structure RoflApp where
  id : Nat
  deriving DecidableEq

/-- `modules::rofl::Genesis`. -/
structure RoflGenesis where
  parameters : RoflParameters
  apps : List RoflApp
  deriving DecidableEq

/-- `module_evm::GasCosts`: empty in the source (`GasCosts {}`). -/
structure EvmGasCosts where
  deriving DecidableEq

/-- `module_evm::Parameters`. -/
structure EvmParameters where
  gas_costs : EvmGasCosts
  deriving DecidableEq

/-- `module_evm::Genesis`. -/
structure EvmGenesis where
  parameters : EvmParameters
  deriving DecidableEq

/-- The 7-tuple returned by `genesis_state` (`runtime/src/lib.rs:181`), with
one field per position of the tuple, in order. -/
structure GenesisBundle where
  core : CoreGenesis
  accounts : AccountsGenesis
  consensus : ConsensusGenesis
  consensus_accounts : ConsensusAccountsGenesis
  rewards : RewardsGenesis
  rofl : RoflGenesis
  evm : EvmGenesis
  deriving DecidableEq

/-- A per-module parameter record, tagged by the module it belongs to. -/
inductive ParamsRecord
  | core (p : CoreParameters)
  | accounts (p : AccountsParameters)
  | consensus (p : ConsensusParameters)
  | consensus_accounts (p : ConsensusAccountsParameters)
  | rewards (p : RewardsParameters)
  | rofl (p : RoflParameters)
  | evm (p : EvmParameters)
  deriving DecidableEq

/-- The module a parameter record belongs to. -/
def ParamsRecord.module : ParamsRecord → ModId
  | .core _ => ModId.core
  | .accounts _ => ModId.accounts
  | .consensus _ => ModId.consensus
  | .consensus_accounts _ => ModId.consensus_accounts
  | .rewards _ => ModId.rewards
  | .rofl _ => ModId.rofl
  | .evm _ => ModId.evm

/-- A per-module genesis record, tagged by the module it belongs to. -/
inductive GenesisRecord
  | core (g : CoreGenesis)
  | accounts (g : AccountsGenesis)
  | consensus (g : ConsensusGenesis)
  | consensus_accounts (g : ConsensusAccountsGenesis)
  | rewards (g : RewardsGenesis)
  | rofl (g : RoflGenesis)
  | evm (g : EvmGenesis)
  deriving DecidableEq

/-- The module a genesis record belongs to. -/
def GenesisRecord.module : GenesisRecord → ModId
  | .core _ => ModId.core
  | .accounts _ => ModId.accounts
  | .consensus _ => ModId.consensus
  | .consensus_accounts _ => ModId.consensus_accounts
  | .rewards _ => ModId.rewards
  | .rofl _ => ModId.rofl
  | .evm _ => ModId.evm

/-- The `.parameters` field of a genesis record, with its module tag. -/
def GenesisRecord.params : GenesisRecord → ParamsRecord
  | .core g => ParamsRecord.core g.parameters
  | .accounts g => ParamsRecord.accounts g.parameters
  | .consensus g => ParamsRecord.consensus g.parameters
  | .consensus_accounts g => ParamsRecord.consensus_accounts g.parameters
  | .rewards g => ParamsRecord.rewards g.parameters
  | .rofl g => ParamsRecord.rofl g.parameters
  | .evm g => ParamsRecord.evm g.parameters

/-- The genesis bundle viewed as a list of tagged records, in tuple order. -/
def bundleRecords (b : GenesisBundle) : List GenesisRecord :=
  [GenesisRecord.core b.core, GenesisRecord.accounts b.accounts,
   GenesisRecord.consensus b.consensus,
   GenesisRecord.consensus_accounts b.consensus_accounts,
   GenesisRecord.rewards b.rewards, GenesisRecord.rofl b.rofl,
   GenesisRecord.evm b.evm]

/-- `genesis_state` (`runtime/src/lib.rs:181`): one genesis record per
registered module, built entirely from literals.  The `BTreeMap::from`
calls are modelled as association lists in key order; the function reads
neither the build configuration nor any ambient state. -/
def genesis_state (_cfg : BuildCfg) (_w : World) : GenesisBundle :=
  { core :=
      { parameters :=
          { min_gas_price := [(Denomination.NATIVE, 100000000000)],
            dynamic_min_gas_price :=
              { enabled := true,
                target_block_gas_usage_percentage := 50,
                min_price_max_change_denominator := 8 },
            max_batch_gas := 15000000,
            max_tx_size := 128 * 1024,
            max_tx_signers := 2,
            max_multisig_signers := 8,
            gas_costs :=
              { tx_byte := 1,
                storage_byte := 15,
                auth_signature := 1000,
                auth_multisig_signer := 1000,
                callformat_x25519_deoxysii := 10000 } } },
    accounts :=
      { parameters :=
          { gas_costs := { tx_transfer := 1000 },
            denomination_infos :=
              [(Denomination.NATIVE, { decimals := 18 })] } },
    consensus :=
      { parameters :=
          { gas_costs := { round_root := 10000 },
            consensus_denomination := Denomination.NATIVE,
            consensus_scaling_factor := 1000000000,
            min_delegate_amount := 100000000000 } },
    consensus_accounts :=
      { parameters :=
          { gas_costs :=
              { tx_deposit := 60000,
                tx_withdraw := 60000,
                tx_delegate := 60000,
                tx_undelegate := 120000,
                store_receipt := 20000,
                take_receipt := 15000 },
            disable_delegate := false,
            disable_undelegate := false,
            disable_deposit := false,
            disable_withdraw := false } },
    rewards :=
      { parameters :=
          { schedule :=
              { steps :=
                  [{ until_epoch := 27500,
                     amount :=
                       { amount := 3000000000000000000,
                         denomination := Denomination.NATIVE } }] },
            participation_threshold_numerator := 3,
            participation_threshold_denominator := 4 } },
    rofl := { parameters := {}, apps := [] },
    evm := { parameters := { gas_costs := {} } } }

/-- The per-module persisted parameter state overwritten by `set_params`,
plus the state version recorded in persisted chain state (kept by the host,
never touched by `migrate_state` itself). -/
structure St where
  recordedVersion : Nat
  coreP : CoreParameters
  accountsP : AccountsParameters
  consensusP : ConsensusParameters
  consensusAccountsP : ConsensusAccountsParameters
  rewardsP : RewardsParameters
  roflP : RoflParameters
  evmP : EvmParameters
  deriving DecidableEq

/-- `Module::set_params(params)`: overwrites the persisted configuration of
the module the record belongs to. -/
def set_params (p : ParamsRecord) (s : St) : St :=
  match p with
  | .core q => { s with coreP := q }
  | .accounts q => { s with accountsP := q }
  | .consensus q => { s with consensusP := q }
  | .consensus_accounts q => { s with consensusAccountsP := q }
  | .rewards q => { s with rewardsP := q }
  | .rofl q => { s with roflP := q }
  | .evm q => { s with evmP := q }

/-- The sequence of `set_params` calls issued by `migrate_state`
(`runtime/src/lib.rs:272`), in statement order: `genesis.0.parameters`
through `genesis.6.parameters`. -/
def migrateCalls (cfg : BuildCfg) (w : World) : List ParamsRecord :=
  let genesis := genesis_state cfg w
  [ParamsRecord.core genesis.core.parameters,
   ParamsRecord.accounts genesis.accounts.parameters,
   ParamsRecord.consensus genesis.consensus.parameters,
   ParamsRecord.consensus_accounts genesis.consensus_accounts.parameters,
   ParamsRecord.rewards genesis.rewards.parameters,
   ParamsRecord.rofl genesis.rofl.parameters,
   ParamsRecord.evm genesis.evm.parameters]

/-- A fatal failure inside a module's `set_params` (modelling a Rust panic,
e.g. on a structurally incompatible stored parameter blob). -/
inductive MigrateErr
  | fatal
  deriving DecidableEq

/-- Run a sequence of `set_params` calls with an explicit per-call behaviour
`setP`, mirroring Rust statement sequencing: a failing call aborts the run
(later statements never execute).  Returns the outcome together with the
trace of modules whose `set_params` was actually invoked. -/
def runCalls (setP : ParamsRecord → St → Except MigrateErr St) :
    List ParamsRecord → St → Except MigrateErr St × List ModId
  | [], s => (Except.ok s, [])
  | p :: rest, s =>
    match setP p s with
    | Except.error e => (Except.error e, [p.module])
    | Except.ok s1 =>
      let r := runCalls setP rest s1
      (r.1, p.module :: r.2)

/-- The actual `set_params` behaviour: the SDK's `set_params` stores the
parameters and cannot return an error. -/
def set_params_ok (p : ParamsRecord) (s : St) : Except MigrateErr St :=
  Except.ok (set_params p s)

/-- `migrate_state` (`runtime/src/lib.rs:272`): recompute the genesis bundle
and copy each module's parameters over, in registry order.  The function
receives no state-version arguments and performs no version comparison. -/
def migrate_state (cfg : BuildCfg) (w : World) (s : St) :
    Except MigrateErr St × List ModId :=
  runCalls set_params_ok (migrateCalls cfg w) s

/-- The state produced by letting every `set_params` call of `migrate_state`
run to completion. -/
def apply_all_params (cfg : BuildCfg) (w : World) (s : St) : St :=
  (migrateCalls cfg w).foldl (fun t p => set_params p t) s

/-- `migrate_state` always succeeds, invokes every module in registry order,
and its result is exactly the total overwrite `apply_all_params`. -/
theorem migrate_state_eq (cfg : BuildCfg) (w : World) (s : St) :
    migrate_state cfg w s = (Except.ok (apply_all_params cfg w s), registry) :=
  rfl

/-- C2: the genesis bundle has exactly as many records as the module
registry (7), the record at each index belongs to the module at the same
index of the registry, and `migrate_state` applies `set_params` with
`bundle[i].parameters` to module `i` in that same order. -/
theorem genesis_bundle_matches_registry (cfg : BuildCfg) (w : World) (s : St) :
    (bundleRecords (genesis_state cfg w)).length = registry.length
    ∧ registry.length = 7
    ∧ (bundleRecords (genesis_state cfg w)).map GenesisRecord.module = registry
    ∧ migrateCalls cfg w
        = (bundleRecords (genesis_state cfg w)).map GenesisRecord.params
    ∧ (migrate_state cfg w s).2 = registry :=
  ⟨rfl, rfl, rfl, rfl, rfl⟩

/-- C6: two invocations of `genesis_state` under the same build
configuration, whatever ambient state (time, randomness, mutable process
state) each could observe, produce identical bundles. -/
theorem genesis_state_deterministic (cfg : BuildCfg) (w1 w2 : World) :
    genesis_state cfg w1 = genesis_state cfg w2 :=
  rfl

/-- C9: in every tier's genesis bundle, the accounts record fixes the native
denomination at 18 decimals, the consensus record fixes the scaling factor
at 10^9, and the rewards record fixes the schedule at the single literal
step (until epoch 27500, 3 * 10^18 native base units). -/
theorem genesis_literal_values (cfg : BuildCfg) (w : World) :
    (genesis_state cfg w).accounts.parameters.denomination_infos
      = [(Denomination.NATIVE, { decimals := 18 })]
    ∧ (genesis_state cfg w).consensus.parameters.consensus_scaling_factor
      = 1000000000
    ∧ (genesis_state cfg w).rewards.parameters.schedule.steps
      = [{ until_epoch := 27500,
           amount := { amount := 3000000000000000000,
                       denomination := Denomination.NATIVE } }] :=
  ⟨rfl, rfl, rfl⟩

/-- A fixed ambient world for concrete evaluations. -/
def w0 : World :=
  { time := 0, entropy := 0, processState := 0 }

/-- A concrete persisted state whose module parameters equal the compiled
genesis parameters and whose recorded state version is 0. -/
def st0 : St :=
  { recordedVersion := 0,
    coreP := (genesis_state cfgMain w0).core.parameters,
    accountsP := (genesis_state cfgMain w0).accounts.parameters,
    consensusP := (genesis_state cfgMain w0).consensus.parameters,
    consensusAccountsP := (genesis_state cfgMain w0).consensus_accounts.parameters,
    rewardsP := (genesis_state cfgMain w0).rewards.parameters,
    roflP := (genesis_state cfgMain w0).rofl.parameters,
    evmP := (genesis_state cfgMain w0).evm.parameters }

/-- Core parameters that differ from the compiled genesis defaults. -/
def junkCoreParams : CoreParameters :=
  { min_gas_price := [],
    dynamic_min_gas_price :=
      { enabled := false, target_block_gas_usage_percentage := 0,
        min_price_max_change_denominator := 1 },
    max_batch_gas := 0,
    max_tx_size := 0,
    max_tx_signers := 0,
    max_multisig_signers := 0,
    gas_costs :=
      { tx_byte := 0, storage_byte := 0, auth_signature := 0,
        auth_multisig_signer := 0, callformat_x25519_deoxysii := 0 } }

/-- A persisted state whose recorded version (7) is ahead of the Mainnet
compiled state version (4) — the downgrade situation of C3 — with core
parameters that differ from the compiled defaults. -/
def stDowngrade : St :=
  { st0 with recordedVersion := 7, coreP := junkCoreParams }

/-- C3 counterexample: invoked in a downgrade situation (recorded version 7,
compiled Mainnet state version 4), `migrate_state` neither returns an error
nor leaves the state alone: it succeeds and overwrites the module
parameters (the core parameters change). -/
theorem migrate_state_downgrade_cex :
    state_version cfgMain < stDowngrade.recordedVersion
    ∧ (migrate_state cfgMain w0 stDowngrade).1
      = Except.ok (apply_all_params cfgMain w0 stDowngrade)
    ∧ (apply_all_params cfgMain w0 stDowngrade).coreP ≠ stDowngrade.coreP := by
  refine ⟨by decide, rfl, by decide⟩

/-- C3 amended: `migrate_state` receives no version arguments and performs
no version comparison, so it cannot refuse a downgrade: invoked at any
recorded state version, including one strictly greater than the compiled
`state_version`, it succeeds, leaves the recorded version unchanged and
unconditionally overwrites every module's parameters with the current
genesis parameters; downgrade prevention is the host's responsibility. -/
theorem migrate_state_no_downgrade_guard (cfg : BuildCfg) (w : World) (s : St)
    (h : state_version cfg < s.recordedVersion) :
    (migrate_state cfg w s).1 = Except.ok (apply_all_params cfg w s)
    ∧ (apply_all_params cfg w s).recordedVersion = s.recordedVersion
    ∧ (apply_all_params cfg w s).rewardsP
      = (genesis_state cfg w).rewards.parameters :=
  ⟨rfl, rfl, rfl⟩

/-- Witness for the amended C3, at the concrete downgrade state. -/
theorem migrate_state_no_downgrade_guard_w :
    (migrate_state cfgMain w0 stDowngrade).1
      = Except.ok (apply_all_params cfgMain w0 stDowngrade)
    ∧ (apply_all_params cfgMain w0 stDowngrade).recordedVersion
      = stDowngrade.recordedVersion
    ∧ (apply_all_params cfgMain w0 stDowngrade).rewardsP
      = (genesis_state cfgMain w0).rewards.parameters :=
  migrate_state_no_downgrade_guard cfgMain w0 stDowngrade (by decide)

/-- The total overwrite is idempotent: a second pass writes the same
compiled genesis parameters over the ones the first pass wrote. -/
theorem apply_all_params_idem (cfg : BuildCfg) (w : World) (s : St) :
    apply_all_params cfg w (apply_all_params cfg w s)
      = apply_all_params cfg w s :=
  rfl

/-- C5: running `migrate_state` twice in succession from the same starting
recorded state leaves the persisted per-module parameter state identical to
running it once. -/
theorem migrate_state_idempotent (cfg : BuildCfg) (w : World) (s t : St)
    (h : (migrate_state cfg w s).1 = Except.ok t) :
    (migrate_state cfg w t).1 = Except.ok t := by
  rw [migrate_state_eq] at h
  have ht : t = apply_all_params cfg w s := by
    cases h
    rfl
  rw [migrate_state_eq, ht, apply_all_params_idem]

/-- Witness for C5 at a concrete starting state. -/
theorem migrate_state_idempotent_w :
    (migrate_state cfgMain w0 (apply_all_params cfgMain w0 stDowngrade)).1
      = Except.ok (apply_all_params cfgMain w0 stDowngrade) :=
  migrate_state_idempotent cfgMain w0 stDowngrade
    (apply_all_params cfgMain w0 stDowngrade) rfl

/-- If a run of `set_params` calls ends in an error, the trace of invoked
modules is non-empty and is exactly an initial segment of the call list's
modules: the failing call is the last invoked and nothing after it runs. -/
theorem runCalls_error_trace (setP : ParamsRecord → St → Except MigrateErr St) :
    ∀ (l : List ParamsRecord) (s : St) (e : MigrateErr) (tr : List ModId),
      runCalls setP l s = (Except.error e, tr) →
      tr ≠ [] ∧ tr = (l.map ParamsRecord.module).take tr.length := by
  intro l
  induction l with
  | nil =>
    intro s e tr h
    simp [runCalls] at h
  | cons p rest ih =>
    intro s e tr h
    rw [runCalls] at h
    cases hsp : setP p s with
    | error e1 =>
      rw [hsp] at h
      have h2 : [p.module] = tr := congrArg Prod.snd h
      subst h2
      exact ⟨by simp, by simp⟩
    | ok s1 =>
      rw [hsp] at h
      have h1 : (runCalls setP rest s1).1 = Except.error e := congrArg Prod.fst h
      have h2 : p.module :: (runCalls setP rest s1).2 = tr := congrArg Prod.snd h
      rcases hr : runCalls setP rest s1 with ⟨r1, r2⟩
      rw [hr] at h1 h2
      have hr1 : r1 = Except.error e := h1
      have h2c : p.module :: r2 = tr := h2
      obtain ⟨-, htake⟩ := ih s1 e r2 (by rw [hr, hr1])
      subst h2c
      refine ⟨by simp, ?_⟩
      simpa [List.take_succ_cons] using htake

/-- Indices at or past the take boundary of the registry are not members of
the taken initial segment. -/
theorem registry_take_not_mem :
    ∀ n, n < 8 → ∀ j, j < 7 → n ≤ j →
      registry.getD j ModId.core ∉ registry.take n := by
  decide

/-- C4: if any `set_params` behaviour fails at some module during the call
sequence of `migrate_state`, the failure propagates as the run's result, the
invoked modules form a non-empty initial segment of the registry ending at
the failing module, and no module later in registry order is ever invoked. -/
theorem migrate_failure_aborts (cfg : BuildCfg) (w : World)
    (setP : ParamsRecord → St → Except MigrateErr St) (s : St)
    (e : MigrateErr) (tr : List ModId)
    (h : runCalls setP (migrateCalls cfg w) s = (Except.error e, tr)) :
    tr ≠ [] ∧ tr = registry.take tr.length
    ∧ ∀ j, tr.length ≤ j → j < registry.length →
        registry.getD j ModId.core ∉ tr := by
  have hm : (migrateCalls cfg w).map ParamsRecord.module = registry := rfl
  obtain ⟨hne, htake⟩ := runCalls_error_trace setP (migrateCalls cfg w) s e tr h
  rw [hm] at htake
  refine ⟨hne, htake, ?_⟩
  intro j hj1 hj2
  have hlen : tr.length ≤ 7 := by
    have hc := congrArg List.length htake
    rw [List.length_take] at hc
    exact le_of_eq_of_le hc (Nat.min_le_right _ _)
  rw [htake]
  have hj7 : j < 7 := by
    have : registry.length = 7 := rfl
    rw [this] at hj2
    exact hj2
  exact registry_take_not_mem tr.length (by omega) j hj7 hj1

/-- A `set_params` behaviour that fails at the consensus module and behaves
like the real (infallible) `set_params` elsewhere. -/
def failOnConsensus (p : ParamsRecord) (s : St) : Except MigrateErr St :=
  match p with
  | .consensus _ => Except.error MigrateErr.fatal
  | q => Except.ok (set_params q s)

/-- Witness for C4: with a behaviour failing at the consensus module (index
2), only core, accounts and consensus are invoked, and the module at index 4
(rewards) is not among them. -/
theorem migrate_failure_aborts_w :
    registry.getD 4 ModId.core
      ∉ [ModId.core, ModId.accounts, ModId.consensus] :=
  (migrate_failure_aborts cfgMain w0 failOnConsensus st0 MigrateErr.fatal
    [ModId.core, ModId.accounts, ModId.consensus] rfl).2.2 4
    (by decide) (by decide)
